import Mathlib

/-
Verification development for the WHO COVID-19 clinical-trials normalizer
(parser.py).  Python strings are modelled as lists of characters; a missing
CSV cell (pandas NaN, detected in the source by the self-inequality idiom
x != x) is modelled as Option.none.  Python code that can raise is modelled
in the Except monad.  All recursions are structural (length-fuelled where
the natural recursion consumes a pattern), so every definition evaluates
inside the kernel.
-/

/-- Strings of the embedded program: lists of characters. -/
abbrev S := List Char

/-- Conversion from Lean string literals. -/
def ls (s : String) : S := s.toList

/-- ASCII lower-casing of one character, as Python str.lower does on ASCII
input (the registry feed is ASCII where the parser compares text). -/
def lowChar (c : Char) : Char :=
  if 'A' ≤ c ∧ c ≤ 'Z' then Char.ofNat (c.toNat + 32) else c

/-- ASCII upper-casing of one character (Python str.upper on ASCII). -/
def upChar (c : Char) : Char :=
  if 'a' ≤ c ∧ c ≤ 'z' then Char.ofNat (c.toNat - 32) else c

/-- Python str.lower. -/
def pyLower (s : S) : S := s.map lowChar

/-- Python str.upper. -/
def pyUpper (s : S) : S := s.map upChar

/-- ASCII whitespace recognized by Python str.strip and int(). -/
def isSpaceChar (c : Char) : Bool :=
  c = ' ' || c = '\t' || c = '\n' || c = '\r' || c.toNat = 11 || c.toNat = 12

/-- Python str.strip: drop leading and trailing whitespace. -/
def pyStrip (s : S) : S :=
  ((s.dropWhile isSpaceChar).reverse.dropWhile isSpaceChar).reverse

/-- Python substring containment, pat in s. -/
def containsPat : S → S → Bool
  | [], pat => pat.isEmpty
  | c :: rest, pat => pat.isPrefixOf (c :: rest) || containsPat rest pat

/-- Python str.replace, length-fuelled.  Scans left to right, replaces every
non-overlapping occurrence, and does not rescan replaced text.  The patterns
used by the parser are all nonempty; for an empty pattern this model is the
identity (Python instead inserts the replacement at every position). -/
def replaceAllF (pat rep : S) : Nat → S → S
  | _, [] => []
  | 0, s => s
  | fuel + 1, c :: rest =>
    if pat ≠ [] ∧ pat.isPrefixOf (c :: rest) then
      rep ++ replaceAllF pat rep fuel ((c :: rest).drop pat.length)
    else
      c :: replaceAllF pat rep fuel rest

/-- Python str.replace s pat rep. -/
def replaceAll (s pat rep : S) : S := replaceAllF pat rep s.length s

/-- Python str.split with a nonempty separator string, length-fuelled.
Splitting the empty string yields one empty piece, as in Python. -/
def pySplitF (pat : S) : Nat → S → List S
  | _, [] => [[]]
  | 0, s => [s]
  | fuel + 1, c :: rest =>
    if pat ≠ [] ∧ pat.isPrefixOf (c :: rest) then
      [] :: pySplitF pat fuel ((c :: rest).drop pat.length)
    else
      match pySplitF pat fuel rest with
      | [] => [[c]]
      | t :: ts => (c :: t) :: ts

/-- Python str.split s pat. -/
def pySplit (s pat : S) : List S := pySplitF pat s.length s

/-- Splitting on a set of single-character delimiters, the effect of
re.split over an alternation of single characters. -/
def splitOnCharsAux (delims : List Char) (cur : S) : S → List S
  | [] => [cur.reverse]
  | c :: rest =>
    if c ∈ delims then cur.reverse :: splitOnCharsAux delims [] rest
    else splitOnCharsAux delims (c :: cur) rest

def splitOnChars (delims : List Char) (s : S) : List S :=
  splitOnCharsAux delims [] s

/-- Python "sep".join(parts). -/
def joinSep (sep : S) : List S → S
  | [] => []
  | [x] => x
  | x :: xs => x ++ sep ++ joinSep sep xs

/-- Value of a nonempty all-digit string. -/
def digitsVal (ds : S) : Option Nat :=
  if ds = [] then none
  else if ds.all Char.isDigit then
    some (ds.foldl (fun n c => 10 * n + (c.toNat - 48)) 0)
  else none

/-- Python int(str): optional surrounding whitespace, optional sign, ASCII
digits; anything else raises (modelled as none, which the parser always
catches).  Underscore digit grouping and non-ASCII digits are not modelled;
the feed values the parser sums are plain digit runs. -/
def pythonInt (s : S) : Option Int :=
  match pyStrip s with
  | '-' :: ds => (digitsVal ds).map (fun n => -(n : Int))
  | '+' :: ds => (digitsVal ds).map (fun n => (n : Int))
  | ds => (digitsVal ds).map (fun n => (n : Int))

/-- Python dict lookup for a dict built from a literal list of pairs: the
later binding of a repeated key wins. -/
def lookupD {α : Type} : List (S × α) → S → Option α
  | [], _ => none
  | (k, v) :: rest, key =>
    match lookupD rest key with
    | some r => some r
    | none => if k = key then some v else none

/-- Capture of the regex fragment (.+?)x at the start of a string: the
shortest nonempty run of non-newline characters followed by the terminator
character.  The run may itself start with the terminator character, since
the dot matches it. -/
def capToAux (term : Char) (acc : S) : S → Option S
  | [] => none
  | c :: rest =>
    if c = term then some acc.reverse
    else if c = '\n' then none
    else capToAux term (c :: acc) rest

def capTo (term : Char) : S → Option S
  | [] => none
  | c :: rest => if c = '\n' then none else capToAux term [c] rest

/-- Leftmost match of the regex pre(.+?)term, as used by the registry
extraction patterns such as assignment: (.+?), in the source.  Returns the
captured group. -/
def searchCap : S → S → Char → Option S
  | [], _, _ => none
  | c :: rest, pre, term =>
    if pre.isPrefixOf (c :: rest) then
      match capTo term ((c :: rest).drop pre.length) with
      | some cap => some cap
      | none => searchCap rest pre term
    else searchCap rest pre term

/-- Word characters of the regex class in the phase pattern. -/
def isWordChar (c : Char) : Bool :=
  ('a' ≤ c ∧ c ≤ 'z') || ('A' ≤ c ∧ c ≤ 'Z') || ('0' ≤ c ∧ c ≤ '9') || c = '_'

/-- Capture a maximal nonempty word-character run followed by a closing
parenthesis, the tail of the EU phase pattern. -/
def capWordParen (s : S) : Option S :=
  let run := s.takeWhile isWordChar
  if run.isEmpty then none
  else
    match s.drop run.length with
    | ')' :: _ => some run
    | _ => none

/-- Leftmost match of the EU long-form phase pattern, capturing the
word after the literal prefix inside the parentheses. -/
def searchParenPhase : S → Option S
  | [] => none
  | c :: rest =>
    if (ls "(phase ").isPrefixOf (c :: rest) then
      match capWordParen ((c :: rest).drop 7) with
      | some tok => some tok
      | none => searchParenPhase rest
    else searchParenPhase rest

/-- Sequential effectful map over Except, the shape of the row-wise apply
calls: the first raising element aborts the whole batch. -/
def mapE {α β : Type} (f : α → Except String β) : List α → Except String (List β)
  | [] => Except.ok []
  | a :: rest =>
    match f a, mapE f rest with
    | Except.ok b, Except.ok bs => Except.ok (b :: bs)
    | Except.error e, _ => Except.error e
    | Except.ok _, Except.error e => Except.error e

/-- pandas duplicated with keep first: an id is flagged when it already
occurred at an earlier position. -/
def dupIdsAux (seen : List S) : List S → List S
  | [] => []
  | y :: ys =>
    if y ∈ seen then y :: dupIdsAux (seen ++ [y]) ys
    else dupIdsAux (seen ++ [y]) ys

/-- The duplicate identifiers reported by the post-transformation check of
getWHOTrials: every occurrence after the first of each id, in order. -/
def duplicateIds (ids : List S) : List S := dupIdsAux [] ids

/-
Vocabulary tables of the parser, transcribed entry by entry.
-/

/-- Registry code table of convertSource (parser.py lines 109-126). -/
def sourceDict : List (S × S) :=
  [ (ls r"ANZCTR", ls r"Australian New Zealand Clinical Trials Registry"),
    (ls r"REBEC", ls r"Brazilian Clinical Trials Registry"),
    (ls r"CHICTR", ls r"Chinese Clinical Trial Register"),
    (ls r"CRIS", ls r"Clinical Research Information Service, Republic of Korea"),
    (ls r"CTRI", ls r"Clinical Trials Registry - India"),
    (ls r"NCT", ls r"ClinicalTrials.gov"),
    (ls r"RPCEC", ls r"Cuban Public Registry of Clinical Trials"),
    (ls r"EU-CTR", ls r"EU Clinical Trials Register"),
    (ls r"DRKS", ls r"German Clinical Trials Register"),
    (ls r"IRCT", ls r"Iranian Registry of Clinical Trials"),
    (ls r"JPRN", ls r"Japan Primary Registries Network"),
    (ls r"PACTR", ls r"Pan African Clinical Trial Registry"),
    (ls r"REPEC", ls r"Peruvian Clinical Trials Registry"),
    (ls r"SLCTR", ls r"Sri Lanka Clinical Trials Registry"),
    (ls r"TCTR", ls r"Thai Clinical Trials Register"),
    (ls r"LBCTR", ls r"Lebanon Clinical Trials Registry"),
    (ls r"NTR", ls r"Netherlands Trial Register") ]

/-- Study type table of standardizeType (parser.py lines 261-278). -/
def typeDict : List (S × S) :=
  [ (ls r"intervention", ls r"interventional"),
    (ls r"treatment study", ls r"interventional"),
    (ls r"interventional study", ls r"interventional"),
    (ls r"interventional clinical trial of medicinal product", ls r"interventional"),
    (ls r"prevention", ls r"prevention"),
    (ls r"observational study", ls r"observational"),
    (ls r"epidemilogical research", ls r"observational"),
    (ls r"prognosis study", ls r"observational"),
    (ls r"diagnostic test", ls r"diagnostic test"),
    (ls r"screening", ls r"screening"),
    (ls r"basic science", ls r"basic science"),
    (ls r"health services research", ls r"health services research"),
    (ls r"health services reaserch", ls r"health services research"),
    (ls r"others,meta-analysis etc", ls r"others") ]

/-- Phase table of standardizePhase (parser.py lines 287-319).  The value
none models the Python None bound to the not selected key; note the one
upper-case key, transcribed exactly as in the source. -/
def phaseDict : List (S × Option (List S)) :=
  [ (ls r"N/A", some [ls r"not applicable"]),
    (ls r"retrospective", some [ls r"not applicable"]),
    (ls r"retrospective study", some [ls r"not applicable"]),
    (ls r"0", some [ls r"phase 0"]),
    (ls r"1", some [ls r"phase 1"]),
    (ls r"2", some [ls r"phase 2"]),
    (ls r"3", some [ls r"phase 3"]),
    (ls r"4", some [ls r"phase 4"]),
    (ls r"i", some [ls r"phase 1"]),
    (ls r"ii", some [ls r"phase 2"]),
    (ls r"iii", some [ls r"phase 3"]),
    (ls r"iv", some [ls r"phase 4"]),
    (ls r"phase i", some [ls r"phase 1"]),
    (ls r"phase ii", some [ls r"phase 2"]),
    (ls r"phase iii", some [ls r"phase 3"]),
    (ls r"phase iv", some [ls r"phase 4"]),
    (ls r"phase-1", some [ls r"phase 1"]),
    (ls r"phase-2", some [ls r"phase 2"]),
    (ls r"phase-3", some [ls r"phase 3"]),
    (ls r"phase-4", some [ls r"phase 4"]),
    (ls r"phase 1/phase 2", some [ls r"phase 1", ls r"phase 2"]),
    (ls r"phase 1 / phase 2", some [ls r"phase 1", ls r"phase 2"]),
    (ls r"1-2", some [ls r"phase 1", ls r"phase 2"]),
    (ls r"phase i/ii", some [ls r"phase 1", ls r"phase 2"]),
    (ls r"phase 2/phase 3", some [ls r"phase 2", ls r"phase 3"]),
    (ls r"phase 2 / phase 3", some [ls r"phase 2", ls r"phase 3"]),
    (ls r"phase 2/phase 3", some [ls r"phase 2", ls r"phase 3"]),
    (ls r"phase ii/iii", some [ls r"phase 2", ls r"phase 3"]),
    (ls r"ii-iii", some [ls r"phase 2", ls r"phase 3"]),
    (ls r"2-3", some [ls r"phase 2", ls r"phase 3"]),
    (ls r"not selected", none) ]

/-- Model table of standardizeModel (parser.py lines 360-385). -/
def modelDict : List (S × S) :=
  [ (ls r"cross-over", ls r"crossover assignment"),
    (ls r"crossover", ls r"crossover assignment"),
    (ls r"cross over", ls r"crossover assignment"),
    (ls r"factorial", ls r"factorial assignment"),
    (ls r"parallel", ls r"parallel assignment"),
    (ls r"sequential", ls r"sequential assignment"),
    (ls r"single group", ls r"single group assignment"),
    (ls r"single arm", ls r"single group assignment"),
    (ls r"single arm study", ls r"single group assignment"),
    (ls r"case control", ls r"case control"),
    (ls r"case-control", ls r"case-control"),
    (ls r"case-control study", ls r"case-control"),
    (ls r"case-crossover", ls r"case-crossover"),
    (ls r"case-only", ls r"case-only"),
    (ls r"case study", ls r"case-only"),
    (ls r"cohort", ls r"cohort"),
    (ls r"cohort study", ls r"cohort"),
    (ls r"defined population", ls r"defined population"),
    (ls r"ecologic or community", ls r"ecologic or community"),
    (ls r"family-based", ls r"family-based"),
    (ls r"natural history", ls r"natural history"),
    (ls r"other", ls r"other") ]

/-- Purpose table of standardizePurpose (parser.py lines 471-486). -/
def purposeDict : List (S × S) :=
  [ (ls r"treatment", ls r"treatment"),
    (ls r"treatment.", ls r"treatment"),
    (ls r"prevention", ls r"prevention"),
    (ls r"diagnostic", ls r"diagnostic"),
    (ls r"diagnostic test for accuracy", ls r"diagnostic"),
    (ls r"supportive", ls r"supportive care"),
    (ls r"supportive care", ls r"supportive care"),
    (ls r"screening", ls r"screening"),
    (ls r"health services research", ls r"health services research"),
    (ls r"health services reaserch", ls r"health services research"),
    (ls r"health care system", ls r"health services research"),
    (ls r"basic science", ls r"basic science"),
    (ls r"basic science/physiological study", ls r"basic science"),
    (ls r"other", ls r"other") ]

/-- Time perspective table of standardizeTime (parser.py lines 515-523). -/
def timeDict : List (S × S) :=
  [ (ls r"cross-sectional", ls r"cross-sectional"),
    (ls r"longitudinal", ls r"longitudinal"),
    (ls r"other", ls r"other"),
    (ls r"prospective", ls r"prospective"),
    (ls r"retrospective", ls r"retrospective"),
    (ls r"both", ls r"retrospective/prospective"),
    (ls r"retrospective/prospective", ls r"retrospective/prospective") ]

/-
Data model: one CSV row of the feed, and the pieces of the canonical
document the claims are about.  Option.none models a missing cell (NaN).
Fields that the parser reads unconditionally with string methods are plain
strings.  The dateModified field stands for the already reformatted value
the orchestrator stores on the frame before applying getWHOStatus; the
strptime-based date reformatting itself is not modelled.
-/

structure Row where
  trialID : S
  sourceRegister : S
  webAddress : S
  scientificTitle : S
  dateModified : S
  recruitmentStatus : Option S := none
  targetSize : Option S := none
  dateEnrollement : Option S := none
  resultsDateCompleted : Option S := none
  resultsDatePosted : Option S := none
  inclusionCriteria : Option S := none
  exclusionCriteria : Option S := none
  inclusionAgemin : Option S := none
  inclusionAgemax : Option S := none
  inclusionGender : Option S := none
  contactFirstname : Option S := none
  contactLastname : Option S := none
  contactAffiliation : Option S := none
  studyType : Option S := none
  phase : Option S := none
  studyDesign : Option S := none
  intervention : Option S := none
  countries : Option S := none
  condition : Option S := none
  primaryOutcome : Option S := none
  publicTitle : Option S := none
  acronym : Option S := none
  resultsYesNo : Option S := none
deriving DecidableEq

structure StatusObj where
  type : S
  status : Option S := none
  statusDate : S
  enrollmentCount : Option Int := none
  enrollmentType : Option S := none
deriving DecidableEq

structure EventObj where
  type : S
  studyEventType : S
  studyEventDate : S
  studyEventDateType : S
deriving DecidableEq

structure EligObj where
  type : S
  inclusionCriteria : Option (List S) := none
  exclusionCriteria : Option (List S) := none
  minimumAge : Option S := none
  maximumAge : Option S := none
  gender : Option S := none
deriving DecidableEq

structure OrgObj where
  type : S
  name : S
deriving DecidableEq

structure PersonObj where
  type : S
  name : S
  affiliation : Option (List OrgObj) := none
deriving DecidableEq

structure PlaceObj where
  type : S
  studyLocationCountry : S
deriving DecidableEq

structure OutcomeObj where
  type : S
  outcomeMeasure : S
  outcomeType : S
deriving DecidableEq

structure IntervObj where
  type : S
  name : Option S := none
  description : Option S := none
  identifier : Option S := none
deriving DecidableEq

structure DesignObj where
  type : S
  studyType : Option S := none
  phase : Option (List S) := none
  phaseNumber : Option (List (Option Int)) := none
  designAllocation : Option S := none
  designModel : Option (List S) := none
  designPrimaryPurpose : Option S := none
  studyDesignText : Option S := none
deriving DecidableEq

/-
Field normalizers, one Lean definition per parser.py function.
-/

/-- convertSource (parser.py lines 108-130): registry code to full name,
unknown codes pass through. -/
def convertSource (source : S) : S :=
  (lookupD sourceDict (pyUpper source)).getD source

/-- binarize (parser.py lines 53-58) on a CSV text cell.  The numeric
comparisons of the source are unreachable on string input and a value that
matches neither vocabulary falls through to None. -/
def binarize (val : Option S) : Option Bool :=
  match val with
  | none => none
  | some v =>
    if v = ls r"yes" ∨ v = ls r"Yes" ∨ v = ls r"1" then some true
    else if v = ls r"no" ∨ v = ls r"No" ∨ v = ls r"0" then some false
    else none

/-- listify (parser.py lines 89-97): keep the present values, in order. -/
def listify (vals : List (Option S)) : List S := vals.filterMap id

/-- standardizeCountry (parser.py lines 132-137): the country table is a
lookup from stripped lower-cased name to canonical name; a miss prints a
diagnostic and returns the input unchanged. -/
def standardizeCountry (input : S) (ctryDict : S → Option S) : S :=
  match ctryDict (pyLower (pyStrip input)) with
  | some name => name
  | none => input

/-- The fixed chain of ambiguous-name substitutions applied by
splitCountries before splitting (parser.py line 143), in source order. -/
def countrySubst (s : S) : S :=
  replaceAll
    (replaceAll
      (replaceAll
        (replaceAll
          (replaceAll
            (replaceAll
              (replaceAll s (ls r"Virgin Islands, U.S.") (ls r"United States of America"))
              (ls r"Virgin Islands, British") (ls r"United Kingdom"))
            (ls r"Korea, North") (ls r"North Korea"))
          (ls r"Korea, South") (ls r"South Korea"))
        (ls r"Korea, Republic of") (ls r"South Korea"))
      (ls r"Iran, Islamic Republic of") (ls r"Iran"))
    (ls r"Congo, ") (ls r"South Korea")

/-- The re.split on comma or semicolon of splitCountries (line 144). -/
def splitCountryTokens (s : S) : List S := splitOnChars [',', ';'] s

/-- splitCountries (parser.py lines 140-145). -/
def splitCountries (countryString : Option S) (ctryDict : S → Option S) :
    Option (List PlaceObj) :=
  match countryString with
  | none => none
  | some cs =>
    some ((splitCountryTokens (countrySubst cs)).map
      (fun country => { type := ls r"Place",
                        studyLocationCountry := standardizeCountry country ctryDict }))

/-- splitCondition (parser.py lines 148-152). -/
def splitCondition (conditionString : Option S) : Option (List S) :=
  match conditionString with
  | none => none
  | some s =>
    let conditions := (pySplit s (ls r"<br>")).map (fun t => pySplit t (ls r";"))
    let flat := conditions.flatten.map pyStrip
    some (flat.filter (fun i => !decide (i = [])))

/-- getWHOStatus (parser.py lines 155-182): status object with the
semicolon and colon delimited enrollment aggregation; arm entries that do
not parse as integers are skipped. -/
def getWHOStatus (row : Row) : StatusObj :=
  let obj : StatusObj :=
    { type := ls r"StudyStatus",
      status := row.recruitmentStatus.map pyLower,
      statusDate := row.dateModified }
  match row.targetSize with
  | none => obj
  | some ts =>
    let armTargets := (pySplit ts (ls r";")).map (fun text => pySplit text (ls r":"))
    let targets := armTargets.filterMap (fun target =>
      if target.length = 2 then pythonInt (target.getD 1 [])
      else pythonInt (target.getD 0 []))
    let enrollmentTarget := targets.foldl (fun a b => a + b) 0
    if enrollmentTarget > 0 then
      { obj with enrollmentCount := some enrollmentTarget,
                 enrollmentType := some (ls r"anticipated") }
    else obj

/-- getWHOEvents (parser.py lines 185-196): up to three events, one per
present date field; an empty list when none is present. -/
def getWHOEvents (row : Row) : List EventObj :=
  (match row.dateEnrollement with
   | some d => [{ type := ls r"StudyEvent", studyEventType := ls r"start",
                  studyEventDate := d, studyEventDateType := ls r"actual" }]
   | none => []) ++
  (match row.resultsDateCompleted with
   | some d => [{ type := ls r"StudyEvent",
                  studyEventType := ls r"first submission of results",
                  studyEventDate := d, studyEventDateType := ls r"actual" }]
   | none => []) ++
  (match row.resultsDatePosted with
   | some d => [{ type := ls r"StudyEvent",
                  studyEventType := ls r"first posting of results",
                  studyEventDate := d, studyEventDateType := ls r"actual" }]
   | none => [])

/-- getWHOEligibility (parser.py lines 199-219).  The exclusion-criteria
list on the object is only created inside the inclusion branch; when the
separate Exclusion Criteria field is present but the Inclusion Criteria
field is absent, the append on the missing key raises KeyError, modelled as
an error value. -/
def getWHOEligibility (row : Row) : Except String (List EligObj) :=
  let obj0 : EligObj := { type := ls r"Eligibility" }
  let obj1 : EligObj :=
    match row.inclusionCriteria with
    | none => obj0
    | some ic =>
      let criteria := pySplit ic (ls r"Exclusion Criteria:")
      let inc := pyStrip (replaceAll
        (replaceAll (criteria.headD []) (ls r"Inclusion criteria:") [])
        (ls r"Inclusion Criteria:") [])
      let obj := { obj0 with inclusionCriteria := some [inc] }
      if criteria.length = 2 then
        { obj with exclusionCriteria := some [pyStrip (criteria.getD 1 [])] }
      else
        { obj with exclusionCriteria := some [] }
  match
    (match row.exclusionCriteria with
     | none => Except.ok obj1
     | some ec =>
       match obj1.exclusionCriteria with
       | some l =>
         let cleaned := pyStrip (replaceAll
           (replaceAll ec (ls r"Exclusion criteria:") [])
           (ls r"Exclusion Criteria:") [])
         Except.ok { obj1 with exclusionCriteria := some (l ++ [cleaned]) }
       | none => Except.error r"KeyError: exclusionCriteria") with
  | Except.error e => Except.error e
  | Except.ok obj2 =>
    let obj3 := match row.inclusionAgemin with
      | some v => { obj2 with minimumAge := some (pyLower v) }
      | none => obj2
    let obj4 := match row.inclusionAgemax with
      | some v => { obj3 with maximumAge := some (pyLower v) }
      | none => obj3
    let obj5 := match row.inclusionGender with
      | some v => { obj4 with gender := some (pyLower v) }
      | none => obj4
    Except.ok [obj5]

/-- Author-name splitting of getWHOAuthors: re.split on semicolon,
question mark or comma. -/
def splitAuthorNames (s : S) : List S := splitOnChars [';', '?', ','] s

/-- getWHOAuthors (parser.py lines 222-251): three cases in priority
order; with neither name field present the function returns None. -/
def getWHOAuthors (row : Row) : Option (List PersonObj) :=
  let affObj : Option (List OrgObj) :=
    match row.contactAffiliation with
    | some a => some [{ type := ls r"Organization", name := pyStrip a }]
    | none => none
  match row.contactFirstname, row.contactLastname with
  | some fn, some ln =>
    some [{ type := ls r"Person", name := fn ++ [' '] ++ ln, affiliation := affObj }]
  | some fn, none =>
    some ((splitAuthorNames fn).map
      (fun author => { type := ls r"Person", name := pyStrip author, affiliation := affObj }))
  | none, some ln =>
    some ((splitAuthorNames ln).map
      (fun author => { type := ls r"Person", name := pyStrip author, affiliation := affObj }))
  | none, none => none

/-- getOutcome (parser.py lines 254-257). -/
def getOutcome (outcomeString : Option S) : Option (List OutcomeObj) :=
  match outcomeString with
  | none => none
  | some s =>
    some (((pySplit s (ls r";")).filter (fun o => !decide (o = []))).map
      (fun outcome => { type := ls r"Outcome", outcomeMeasure := outcome,
                        outcomeType := ls r"primary" }))

/-- standardizeType (parser.py lines 260-283): lookup on the lower-cased
text, unknown input passes through lower-cased, missing input yields
None. -/
def standardizeType (type : Option S) : Option S :=
  match type with
  | none => none
  | some t =>
    match lookupD typeDict (pyLower t) with
    | some v => some v
    | none => some (pyLower t)

/-- standardizePhase (parser.py lines 286-331).  The EU long-form branch
scans the lines marked yes and can raise (an unmatched line makes the
regex result unsubscriptable, an unknown token or the None table value
makes the lookup or the flattening raise), hence the Except result.  The
plain branch looks up the lower-cased text and falls back to the
lower-cased text as a singleton. -/
def standardizePhase (phase : Option S) : Except String (Option (List S)) :=
  match phase with
  | none => Except.ok none
  | some p =>
    if containsPat (pyLower p) (ls r"human pharmacology") then
      let lines := (pySplit p [Char.ofNat 10]).filter
        (fun item => containsPat item (ls r"yes"))
      match mapE (fun item =>
          match searchParenPhase (pyLower item) with
          | some tok => Except.ok tok
          | none => Except.error r"TypeError: NoneType is not subscriptable") lines with
      | Except.error e => Except.error e
      | Except.ok phases =>
        match mapE (fun phaseStr =>
            match lookupD phaseDict phaseStr with
            | some (some v) => Except.ok v
            | some none => Except.error r"TypeError: NoneType is not iterable"
            | none => Except.error r"KeyError") phases with
        | Except.error e => Except.error e
        | Except.ok conv => Except.ok (some conv.flatten)
    else
      match lookupD phaseDict (pyLower p) with
      | some v => Except.ok v
      | none => Except.ok (some [pyLower p])

/-- getPhaseNumber (parser.py lines 334-347).  The Python function returns
a two-element list for early phase 1, a bare number for a single phase and
None otherwise; a return value is encoded as the list of its atoms so that
the flatten of getWHODesign is list concatenation, with none standing for
the Python None atom. -/
def getPhaseNumber (phase : S) : List (Option Int) :=
  if phase = ls r"early phase 1" then [some 0, some 1]
  else if phase = ls r"phase 0" then [some 0]
  else if phase = ls r"phase 1" then [some 1]
  else if phase = ls r"phase 2" then [some 2]
  else if phase = ls r"phase 3" then [some 3]
  else if phase = ls r"phase 4" then [some 4]
  else [none]

/-- standardizeModel (parser.py lines 357-436): the Iranian, German and
Australian extraction patterns in order, then the EU and Japanese literal
patterns, then the direct lookup; a total miss yields None. -/
def standardizeModel (design : Option S) : Option S :=
  match design with
  | none => none
  | some d =>
    let dl := pyLower d
    match searchCap dl (ls r"assignment: ") ',' with
    | some cap =>
      match lookupD modelDict (pyLower cap) with
      | some v => some v
      | none => some (pyLower cap)
    | none =>
    match searchCap dl (ls r"assignment: ") '.' with
    | some cap =>
      let arr := pySplit (pyLower cap) (ls r".")
      let hd := arr.headD []
      match lookupD modelDict hd with
      | some v => some v
      | none => some hd
    | none =>
    match searchCap dl (ls r"assignment: ") ';' with
    | some cap =>
      let arr := pySplit (pyLower cap) (ls r";")
      let hd := arr.headD []
      match lookupD modelDict hd with
      | some v => some v
      | none => some hd
    | none =>
    if containsPat dl (ls r"parallel group: yes") then some (ls r"parallel assignment")
    else if containsPat dl (ls r"cross over group: yes") then some (ls r"crossover assignment")
    else if containsPat dl (ls r"parallel assignment") then some (ls r"parallel assignment")
    else if containsPat dl (ls r"single assignment") then some (ls r"single group assignment")
    else lookupD modelDict dl

/-- standardizeAllocation (parser.py lines 439-466): the registry-specific
non-randomized phrasings are checked before the generic randomized
substrings. -/
def standardizeAllocation (designText : Option S) : Option S :=
  match designText with
  | none => none
  | some d0 =>
    let d := pyLower d0
    if containsPat d (ls r"allocation: single arm study") then some (ls r"non-randomized")
    else if containsPat d (ls r"randomized: no") then some (ls r"non-randomized")
    else if containsPat d (ls r"randomised: no") then some (ls r"non-randomized")
    else if containsPat d (ls r"not randomized") then some (ls r"non-randomized")
    else if containsPat d (ls r"non randomized") then some (ls r"non-randomized")
    else if containsPat d (ls r"non-randomized") then some (ls r"non-randomized")
    else if containsPat d (ls r"not randomised") then some (ls r"non-randomized")
    else if containsPat d (ls r"non randomised") then some (ls r"non-randomized")
    else if containsPat d (ls r"non-randomised") then some (ls r"non-randomized")
    else if containsPat d (ls r"randomised") then some (ls r"randomized")
    else if containsPat d (ls r"randomized") then some (ls r"randomized")
    else none

/-- standardizePurpose (parser.py lines 469-512): the semicolon then the
comma extraction pattern, then the direct lookup on the design text, then
the fallback lookup on the Study type field; every remaining miss yields
None. -/
def standardizePurpose (row : Row) : Option S :=
  match row.studyDesign with
  | none => none
  | some d =>
    let dl := pyLower d
    match searchCap dl (ls r"purpose: ") ';' with
    | some cap =>
      match lookupD purposeDict (pyLower cap) with
      | some v => some v
      | none => some (pyLower cap)
    | none =>
    match searchCap dl (ls r"purpose: ") ',' with
    | some cap =>
      match lookupD purposeDict (pyLower cap) with
      | some v => some v
      | none => some (pyLower cap)
    | none =>
    match lookupD purposeDict dl with
    | some v => some v
    | none =>
      match row.studyType with
      | some t => lookupD purposeDict (pyLower t)
      | none => none

/-- standardizeTime (parser.py lines 514-546): the timing extraction
pattern, then substring checks in source order. -/
def standardizeTime (designStr : Option S) : Option S :=
  match designStr with
  | none => none
  | some d =>
    let dl := pyLower d
    match searchCap dl (ls r"timing: ") ';' with
    | some cap =>
      match lookupD timeDict (pyLower cap) with
      | some v => some v
      | none => some (pyLower cap)
    | none =>
    if containsPat dl (ls r"prospective/retrospective") then some (ls r"prospective/retrospective")
    else if containsPat dl (ls r"retrospective") then some (ls r"retrospective")
    else if containsPat dl (ls r"prospective") then some (ls r"prospective")
    else if containsPat dl (ls r"longitudinal") then some (ls r"longitudinal")
    else if containsPat dl (ls r"cross-sectional") then some (ls r"cross-sectional")
    else none

/-- getWHODesign (parser.py lines 549-570): the phase key is always
written, the phaseNumber key only when the phase value is not None, and
the design-text dependent keys only when the Study design field is
present. -/
def getWHODesign (row : Row) : Except String DesignObj :=
  match standardizePhase row.phase with
  | Except.error e => Except.error e
  | Except.ok phase =>
    let obj0 : DesignObj :=
      { type := ls r"StudyDesign",
        studyType := standardizeType row.studyType,
        phase := phase }
    let obj1 :=
      match phase with
      | some phases => { obj0 with phaseNumber := some ((phases.map getPhaseNumber).flatten) }
      | none => obj0
    match row.studyDesign with
    | none => Except.ok obj1
    | some dtext =>
      let models :=
        (match standardizeModel (some dtext) with
         | some m => [m]
         | none => []) ++
        (match standardizeTime (some dtext) with
         | some t => [t]
         | none => [])
      Except.ok { obj1 with
        designAllocation := standardizeAllocation (some dtext),
        designModel := some models,
        designPrimaryPurpose := standardizePurpose row,
        studyDesignText := some dtext }

/-- The line-pair extraction of the EU intervention branch (parser.py line
619): every line containing a colon-space separator must split into
exactly one key and one value, otherwise the Python dict construction
raises ValueError. -/
def euPairs (block : List S) : Except String (List (S × S)) :=
  mapE (fun item =>
      match pySplit item (ls r": ") with
      | [k, v] => Except.ok (k, v)
      | _ => Except.error r"ValueError: dictionary update sequence")
    (block.filter (fun item => containsPat item (ls r": ")))

/-- One EU intervention block (parser.py lines 616-628): skipped when the
block is empty or its first line is a bare newline; otherwise the
Product Name, Trade Name and CAS Number keys are written onto the object
in source order, so a later assignment overwrites an earlier one. -/
def euInterventionObj (block : List S) : Except String (Option IntervObj) :=
  if block ≠ [] ∧ block.headD [] ≠ [Char.ofNat 10] then
    match euPairs block with
    | Except.error e => Except.error e
    | Except.ok parsed =>
      let obj : IntervObj :=
        { type := ls r"Intervention",
          description := some (joinSep [Char.ofNat 10] block) }
      let obj :=
        match lookupD parsed (ls r"Product Name") with
        | some v => { obj with name := some v }
        | none => obj
      let obj :=
        match lookupD parsed (ls r"Trade Name") with
        | some v => { obj with name := some v }
        | none => obj
      let obj :=
        match lookupD parsed (ls r"CAS Number") with
        | some v => { obj with identifier := some v }
        | none => obj
      Except.ok (some obj)
  else Except.ok none

/-- getInterventions (parser.py lines 599-629): the Chinese and Pan
African splitting strategies, the EU block strategy, and None for every
other registry or a missing intervention text. -/
def getInterventions (row : Row) : Except String (Option (List IntervObj)) :=
  match row.intervention with
  | none => Except.ok none
  | some itext =>
    let id := pyUpper row.sourceRegister
    if id = ls r"CHICTR" then
      let groups := pySplit itext (ls r";")
      let names := groups.map (fun group => pySplit group (ls r":"))
      Except.ok (some (((names.filter (fun n => decide (1 < n.length))).map
        (fun n => ({ type := ls r"Intervention",
                     name := some (pyStrip (n.getD 1 [])) } : IntervObj)))))
    else if id = ls r"PACTR" then
      let names := pySplit itext (ls r";")
      Except.ok (some (((names.filter (fun n => decide (1 < n.length))).map
        (fun n => ({ type := ls r"Intervention",
                     name := some (pyStrip n) } : IntervObj)))))
    else if id = pyUpper (ls r"EU Clinical Trials Register") then
      let groups := pySplit itext (ls r"<br><br>")
      let blocks := groups.map (fun item => pySplit item (ls r"<br>"))
      match mapE euInterventionObj blocks with
      | Except.error e => Except.error e
      | Except.ok objs => Except.ok (some (objs.filterMap (fun o => o)))
    else Except.ok none

/-
Row orchestrator: the per-row column assignments of getWHOTrials
(parser.py lines 644-678) for the fields this development reasons about.
The strptime-reformatted date columns, the constant null columns, the
funding and curation wrappers and the arm-group column are outside every
claim and are not modelled; the identifier columns and every normalizer
output the claims mention are assembled exactly as in the source.  An
exception in any normalizer aborts the batch, as an uncaught exception in
a pandas apply does.
-/

structure Doc where
  type : S
  id : S
  identifier : S
  url : S
  identifierSource : S
  name : S
  alternateName : List S
  hasResults : Option Bool
  studyLocation : Option (List PlaceObj)
  healthCondition : Option (List S)
  studyStatus : StatusObj
  studyEvent : Option (List EventObj)
  eligibilityCriteria : List EligObj
  author : Option (List PersonObj)
  studyDesign : DesignObj
  interventions : Option (List IntervObj)
  interventionText : Option S
  outcome : Option (List OutcomeObj)
deriving DecidableEq

/-- One row of getWHOTrials: every per-row assignment of the modelled
columns.  The studyEvent column always receives the list returned by
getWHOEvents, so an eventless row carries a present empty list. -/
def transformRow (ctryDict : S → Option S) (row : Row) : Except String Doc :=
  match getWHOEligibility row with
  | Except.error e => Except.error e
  | Except.ok elig =>
    match getWHODesign row with
    | Except.error e => Except.error e
    | Except.ok design =>
      match getInterventions row with
      | Except.error e => Except.error e
      | Except.ok interv =>
        Except.ok
          { type := ls r"ClinicalTrial",
            id := row.trialID,
            identifier := row.trialID,
            url := row.webAddress,
            identifierSource := convertSource row.sourceRegister,
            name := pyStrip row.scientificTitle,
            alternateName := listify [row.acronym, row.publicTitle],
            hasResults := binarize row.resultsYesNo,
            studyLocation := splitCountries row.countries ctryDict,
            healthCondition := splitCondition row.condition,
            studyStatus := getWHOStatus row,
            studyEvent := some (getWHOEvents row),
            eligibilityCriteria := elig,
            author := getWHOAuthors row,
            studyDesign := design,
            interventions := interv,
            interventionText := row.intervention,
            outcome := getOutcome row.primaryOutcome }

/-- getWHOTrials (parser.py lines 634-689) restricted to the transformation
core: rows from the excluded registry are dropped, every kept row yields
one document, and after the whole batch the duplicate identifiers are
collected for the diagnostic message.  The documents and the reported
duplicate list are returned together. -/
def getWHOTrials (ctryDict : S → Option S) (rows : List Row) :
    Except String (List Doc × List S) :=
  match mapE (transformRow ctryDict)
      (rows.filter (fun r => !decide (r.sourceRegister = ls r"ClinicalTrials.gov"))) with
  | Except.error e => Except.error e
  | Except.ok docs =>
    Except.ok (docs, duplicateIds
      ((rows.filter (fun r => !decide (r.sourceRegister = ls r"ClinicalTrials.gov"))).map
        Row.trialID))

/-
Concrete inputs used by the witnesses and counterexamples below.
-/

/-- A baseline row: identifying fields filled, every optional cell
missing. -/
def rowNone : Row :=
  { trialID := ls r"trial-1", sourceRegister := ls r"ISRCTN",
    webAddress := ls r"http://example.org", scientificTitle := ls r"A Study",
    dateModified := ls r"2020-01-01" }

/-- A country table with no entries: every lookup misses and the input
passes through, which no claim below depends on. -/
def ctryNone : S → Option S := fun _ => none

/-- C1: the claim states that a row with an absent Inclusion Criteria field
and a present Exclusion Criteria field returns normally from
getWHOEligibility.  The code instead raises KeyError there, because the
exclusion list on the object is only created inside the inclusion branch;
this theorem evaluates the extractor at such a row. -/
theorem eligibility_absent_inclusion_keyerror :
    getWHOEligibility { rowNone with exclusionCriteria := some (ls r"pregnant") } =
      Except.error r"KeyError: exclusionCriteria" := rfl

/-- C2: evaluation of the phase normalizer at the two claimed inputs.  The
input Phase 1/Phase 2 yields the canonical labels and the numeric list
[1,2] as claimed; the input N/A however yields the passthrough label n/a
and a phaseNumber list holding only the Python None, because the lookup
lower-cases the text while the table key N/A is upper-case, so the claimed
result [not applicable] is unreachable. -/
theorem phase_normalization_behavior :
    standardizePhase (some (ls r"Phase 1/Phase 2")) =
        Except.ok (some [ls r"phase 1", ls r"phase 2"]) ∧
    (getWHODesign { rowNone with phase := some (ls r"Phase 1/Phase 2") }).map
        DesignObj.phaseNumber = Except.ok (some [some 1, some 2]) ∧
    standardizePhase (some (ls r"N/A")) = Except.ok (some [ls r"n/a"]) ∧
    (getWHODesign { rowNone with phase := some (ls r"N/A") }).map
        DesignObj.phaseNumber = Except.ok (some [none]) :=
  ⟨rfl, rfl, rfl, rfl⟩

/-- C4: enrollment aggregation of the status extractor.  The target size
Arm A:30;Arm B:20 sums to an anticipated enrollment of 50; the target size
abc;def has no parseable entry, every entry is skipped without raising and
no enrollment field is written. -/
theorem enrollment_aggregation :
    ((getWHOStatus { rowNone with targetSize := some (ls r"Arm A:30;Arm B:20") }).enrollmentCount
        = some 50 ∧
     (getWHOStatus { rowNone with targetSize := some (ls r"Arm A:30;Arm B:20") }).enrollmentType
        = some (ls r"anticipated")) ∧
    ((getWHOStatus { rowNone with targetSize := some (ls r"abc;def") }).enrollmentCount = none ∧
     (getWHOStatus { rowNone with targetSize := some (ls r"abc;def") }).enrollmentType = none) :=
  ⟨⟨rfl, rfl⟩, ⟨rfl, rfl⟩⟩

/-- A successful row transformation determines each modelled document
field from the row exactly as the orchestrator assigns it. -/
lemma transformRow_fields (ctry : S → Option S) (row : Row) (d : Doc)
    (h : transformRow ctry row = Except.ok d) :
    d.id = row.trialID ∧ d.identifier = row.trialID ∧
    d.studyStatus = getWHOStatus row ∧
    d.studyEvent = some (getWHOEvents row) ∧
    d.author = getWHOAuthors row := by
  unfold transformRow at h
  rcases h1 : getWHOEligibility row with e | elig <;> rw [h1] at h
  · cases h
  · rcases h2 : getWHODesign row with e | design <;> rw [h2] at h
    · cases h
    · rcases h3 : getInterventions row with e | interv <;> rw [h3] at h
      · cases h
      · injection h with h4
        subst h4
        exact ⟨rfl, rfl, rfl, rfl, rfl⟩

/-- C9: for every row whose transformation succeeds, the produced document
carries the row identifier unmodified in both its identifier and its id
field. -/
theorem document_identifier_unmodified (ctry : S → Option S) (row : Row) (d : Doc)
    (h : transformRow ctry row = Except.ok d) :
    d.identifier = row.trialID ∧ d.id = row.trialID :=
  ⟨(transformRow_fields ctry row d h).2.1, (transformRow_fields ctry row d h).1⟩

/-- The document produced from the baseline row. -/
def wDoc : Doc :=
  match transformRow ctryNone rowNone with
  | Except.ok d => d
  | Except.error _ =>
    { type := [], id := [], identifier := [], url := [], identifierSource := [],
      name := [], alternateName := [], hasResults := none, studyLocation := none,
      healthCondition := none, studyStatus := { type := [], statusDate := [] },
      studyEvent := none, eligibilityCriteria := [], author := none,
      studyDesign := { type := [] }, interventions := none,
      interventionText := none, outcome := none }

/-- Witness for C9 at the baseline row. -/
theorem document_identifier_unmodified_witness :
    wDoc.identifier = rowNone.trialID ∧ wDoc.id = rowNone.trialID :=
  document_identifier_unmodified ctryNone rowNone wDoc rfl

/-- C3 counterexample: the baseline row has no Target size, no event date
and no author name field, yet its document carries the studyEvent key as a
present empty list rather than an absent or null value, contradicting the
claim. -/
theorem studyEvent_empty_list_cex :
    (transformRow ctryNone rowNone).map Doc.studyEvent = Except.ok (some []) ∧
    (some ([] : List EventObj)) ≠ (none : Option (List EventObj)) :=
  ⟨rfl, by simp⟩

/-- C3 amended: on a row with no Target size, no event-date field and no
author name field, the enrollment fields are absent and the author value
is the Python None, as claimed, but the studyEvent key is present and
holds an empty list. -/
theorem absent_optional_fields_amended (ctry : S → Option S) (row : Row) (d : Doc)
    (h1 : row.targetSize = none) (h2 : row.dateEnrollement = none)
    (h3 : row.resultsDateCompleted = none) (h4 : row.resultsDatePosted = none)
    (h5 : row.contactFirstname = none) (h6 : row.contactLastname = none)
    (h : transformRow ctry row = Except.ok d) :
    d.studyStatus.enrollmentCount = none ∧ d.studyStatus.enrollmentType = none ∧
    d.author = none ∧ d.studyEvent = some [] := by
  obtain ⟨-, -, hst, hev, hau⟩ := transformRow_fields ctry row d h
  refine ⟨?_, ?_, ?_, ?_⟩
  · rw [hst]; simp [getWHOStatus, h1]
  · rw [hst]; simp [getWHOStatus, h1]
  · rw [hau]; simp [getWHOAuthors, h5, h6]
  · rw [hev]; simp [getWHOEvents, h2, h3, h4]

/-- Witness for the amended C3 at the baseline row. -/
theorem absent_optional_fields_amended_witness :
    wDoc.studyStatus.enrollmentCount = none ∧ wDoc.studyStatus.enrollmentType = none ∧
    wDoc.author = none ∧ wDoc.studyEvent = some [] :=
  absent_optional_fields_amended ctryNone rowNone wDoc rfl rfl rfl rfl rfl rfl rfl

/-- C7: any design text whose lower-casing contains one of the nine
registry-specific non-randomized phrasings is classified non-randomized,
because every one of those checks precedes the generic randomised and
randomized substring checks. -/
theorem allocation_nonrandomized_priority (s : S)
    (h : containsPat (pyLower s) (ls r"allocation: single arm study") = true ∨
         containsPat (pyLower s) (ls r"randomized: no") = true ∨
         containsPat (pyLower s) (ls r"randomised: no") = true ∨
         containsPat (pyLower s) (ls r"not randomized") = true ∨
         containsPat (pyLower s) (ls r"non randomized") = true ∨
         containsPat (pyLower s) (ls r"non-randomized") = true ∨
         containsPat (pyLower s) (ls r"not randomised") = true ∨
         containsPat (pyLower s) (ls r"non randomised") = true ∨
         containsPat (pyLower s) (ls r"non-randomised") = true) :
    standardizeAllocation (some s) = some (ls r"non-randomized") := by
  rcases h with h|h|h|h|h|h|h|h|h <;>
    simp only [standardizeAllocation, h, if_true] <;>
    split_ifs <;> rfl

/-- Witness for C7 on a Netherlands-style phrasing. -/
theorem allocation_nonrandomized_priority_witness :
    standardizeAllocation (some (ls r"Randomized: No")) = some (ls r"non-randomized") :=
  allocation_nonrandomized_priority (ls r"Randomized: No") (by decide)

/-- C6: a design text on which the Iranian, German and Australian
assignment extraction patterns, the EU group literals and the Japanese
assignment literals all fail, and whose lower-cased text is not a key of
the model table, gets no model: the normalizer returns None rather than
raising or guessing. -/
theorem model_total_miss_returns_none (design : S)
    (h1 : searchCap (pyLower design) (ls r"assignment: ") ',' = none)
    (h2 : searchCap (pyLower design) (ls r"assignment: ") '.' = none)
    (h3 : searchCap (pyLower design) (ls r"assignment: ") ';' = none)
    (h4 : containsPat (pyLower design) (ls r"parallel group: yes") = false)
    (h5 : containsPat (pyLower design) (ls r"cross over group: yes") = false)
    (h6 : containsPat (pyLower design) (ls r"parallel assignment") = false)
    (h7 : containsPat (pyLower design) (ls r"single assignment") = false)
    (h8 : lookupD modelDict (pyLower design) = none) :
    standardizeModel (some design) = none := by
  simp only [standardizeModel, h1, h2, h3, h4, h5, h6, h7, h8]
  simp

/-- Witness for C6 on an unclassifiable free-text design. -/
theorem model_total_miss_returns_none_witness :
    standardizeModel (some (ls r"free text design")) = none :=
  model_total_miss_returns_none (ls r"free text design") rfl rfl rfl rfl rfl rfl rfl rfl

/-- A string that does not contain the pattern starts every suffix without
it. -/
lemma containsPat_cons_false {c : Char} {rest pat : S}
    (h : containsPat (c :: rest) pat = false) :
    pat.isPrefixOf (c :: rest) = false ∧ containsPat rest pat = false := by
  simpa [containsPat, Bool.or_eq_false_iff] using h

/-- Replacement is the identity on a string that does not contain the
pattern, at any fuel. -/
lemma replaceAllF_id {pat rep : S} :
    ∀ (fuel : Nat) (s : S), containsPat s pat = false →
      replaceAllF pat rep fuel s = s := by
  intro fuel
  induction fuel with
  | zero => intro s _; cases s <;> rfl
  | succ n ih =>
    intro s h
    cases s with
    | nil => rfl
    | cons c rest =>
      obtain ⟨hpre, htail⟩ := containsPat_cons_false h
      rw [replaceAllF, if_neg, ih rest htail]
      rintro ⟨-, hp⟩
      rw [hpre] at hp
      cases hp

/-- Python str.replace is the identity on a string that does not contain
the pattern. -/
lemma replaceAll_id {s pat rep : S} (h : containsPat s pat = false) :
    replaceAll s pat rep = s :=
  replaceAllF_id s.length s h

/-- A string containing none of the seven ambiguous-name patterns is a
fixed point of the substitution chain. -/
lemma countrySubst_fixed (t : S)
    (h1 : containsPat t (ls r"Virgin Islands, U.S.") = false)
    (h2 : containsPat t (ls r"Virgin Islands, British") = false)
    (h3 : containsPat t (ls r"Korea, North") = false)
    (h4 : containsPat t (ls r"Korea, South") = false)
    (h5 : containsPat t (ls r"Korea, Republic of") = false)
    (h6 : containsPat t (ls r"Iran, Islamic Republic of") = false)
    (h7 : containsPat t (ls r"Congo, ") = false) :
    countrySubst t = t := by
  unfold countrySubst
  rw [replaceAll_id h1, replaceAll_id h2, replaceAll_id h3, replaceAll_id h4,
      replaceAll_id h5, replaceAll_id h6, replaceAll_id h7]

/-- C5 counterexample: on the input Korea, South, North the first
substitution pass produces South Korea, North, and the second pass then
rewrites the newly created Korea, North occurrence, so applying the
substitution chain twice changes the split token list that one
application produces. -/
theorem country_substitution_not_idempotent_cex :
    splitCountryTokens (countrySubst (countrySubst (ls r"Korea, South, North"))) ≠
      splitCountryTokens (countrySubst (ls r"Korea, South, North")) := by
  decide

/-- C5 amended: the substitution step of country splitting is idempotent
on every country string whose once-substituted form contains none of the
seven substitution patterns; it is not idempotent in general, as the
counterexample shows. -/
theorem country_substitution_idempotent_amended (s : S)
    (h1 : containsPat (countrySubst s) (ls r"Virgin Islands, U.S.") = false)
    (h2 : containsPat (countrySubst s) (ls r"Virgin Islands, British") = false)
    (h3 : containsPat (countrySubst s) (ls r"Korea, North") = false)
    (h4 : containsPat (countrySubst s) (ls r"Korea, South") = false)
    (h5 : containsPat (countrySubst s) (ls r"Korea, Republic of") = false)
    (h6 : containsPat (countrySubst s) (ls r"Iran, Islamic Republic of") = false)
    (h7 : containsPat (countrySubst s) (ls r"Congo, ") = false) :
    splitCountryTokens (countrySubst (countrySubst s)) =
      splitCountryTokens (countrySubst s) := by
  rw [countrySubst_fixed (countrySubst s) h1 h2 h3 h4 h5 h6 h7]

/-- Witness for the amended C5 on a two-country string free of the
patterns. -/
theorem country_substitution_idempotent_amended_witness :
    splitCountryTokens (countrySubst (countrySubst (ls r"France;Spain"))) =
      splitCountryTokens (countrySubst (ls r"France;Spain")) :=
  country_substitution_idempotent_amended (ls r"France;Spain")
    rfl rfl rfl rfl rfl rfl rfl

/-- The duplicate scan processes a concatenation left to right, the prefix
becoming part of the seen accumulator for the suffix. -/
lemma dupIdsAux_append (seen l rest : List S) :
    dupIdsAux seen (l ++ rest) = dupIdsAux seen l ++ dupIdsAux (seen ++ l) rest := by
  induction l generalizing seen with
  | nil => simp [dupIdsAux]
  | cons y ys ih =>
    simp only [List.cons_append, dupIdsAux]
    by_cases hy : y ∈ seen
    · simp [hy, ih (seen ++ [y]), List.append_assoc]
    · simp [hy, ih (seen ++ [y]), List.append_assoc]

/-- A duplicate-free segment disjoint from the already seen ids
contributes nothing to the duplicate report. -/
lemma dupIdsAux_nil_of (l : List S) :
    ∀ (seen : List S), l.Nodup → (∀ y ∈ l, y ∉ seen) →
      dupIdsAux seen l = [] := by
  induction l with
  | nil => intro seen _ _; rfl
  | cons y ys ih =>
    intro seen hl hd
    have hy : y ∉ seen := hd y (List.mem_cons_self y ys)
    rw [dupIdsAux, if_neg hy]
    refine ih (seen ++ [y]) (List.nodup_cons.mp hl).2 ?_
    intro z hz
    simp only [List.mem_append, List.mem_singleton, not_or]
    exact ⟨hd z (List.mem_cons_of_mem y hz),
           fun hzy => (List.nodup_cons.mp hl).1 (hzy ▸ hz)⟩

/-- An id list holding exactly one repeated value produces exactly that
value as the duplicate report: positions before, between and after the
two occurrences contribute nothing, and only the second occurrence is
flagged. -/
lemma duplicateIds_one_pair (A B C : List S) (x : S)
    (hnd : (A ++ x :: (B ++ C)).Nodup) :
    duplicateIds (A ++ x :: (B ++ x :: C)) = [x] := by
  rw [List.nodup_append] at hnd
  obtain ⟨hA, hxBC, hdisj⟩ := hnd
  rw [List.nodup_cons] at hxBC
  obtain ⟨hxnotBC, hBC⟩ := hxBC
  rw [List.nodup_append] at hBC
  obtain ⟨hB, hC, hdBC⟩ := hBC
  simp only [List.mem_append, not_or] at hxnotBC
  have hxA : x ∉ A := fun hx => hdisj hx (List.mem_cons_self x (B ++ C))
  have hBA : ∀ y ∈ B, y ∉ A := fun y hyB hyA =>
    hdisj hyA (List.mem_cons_of_mem x (List.mem_append_left C hyB))
  have hCA : ∀ y ∈ C, y ∉ A := fun y hyC hyA =>
    hdisj hyA (List.mem_cons_of_mem x (List.mem_append_right B hyC))
  have hCB : ∀ y ∈ C, y ∉ B := fun y hyC hyB => hdBC hyB hyC
  unfold duplicateIds
  rw [dupIdsAux_append [] A (x :: (B ++ x :: C))]
  rw [dupIdsAux_nil_of A [] hA (by intro y _; exact List.not_mem_nil y)]
  simp only [List.nil_append]
  rw [dupIdsAux, if_neg hxA]
  rw [show (B ++ x :: C) = B ++ (x :: C) from rfl]
  rw [dupIdsAux_append (A ++ [x]) B (x :: C)]
  rw [dupIdsAux_nil_of B (A ++ [x]) hB ?hB]
  case hB =>
    intro y hyB
    simp only [List.mem_append, List.mem_singleton, not_or]
    exact ⟨hBA y hyB, fun hyx => hxnotBC.1 (hyx ▸ hyB)⟩
  rw [dupIdsAux, if_pos (by simp)]
  rw [dupIdsAux_nil_of C (A ++ [x] ++ B ++ [x]) hC ?hC]
  case hC =>
    intro y hyC
    simp only [List.mem_append, List.mem_singleton, not_or]
    exact ⟨⟨⟨hCA y hyC, fun hyx => hxnotBC.2 (hyx ▸ hyC)⟩, hCB y hyC⟩,
           fun hyx => hxnotBC.2 (hyx ▸ hyC)⟩
  rfl

/-- A batch map that succeeds produces one output per input. -/
lemma mapE_ok_length {α β : Type} (f : α → Except String β) :
    ∀ (l : List α) (out : List β), mapE f l = Except.ok out → out.length = l.length := by
  intro l
  induction l with
  | nil =>
    intro out h
    injection h with h
    subst h
    rfl
  | cons a rest ih =>
    intro out h
    rw [mapE] at h
    cases hfa : f a <;> rw [hfa] at h
    · cases h
    · cases hm : mapE f rest <;> rw [hm] at h
      · cases h
      · injection h with h
        subst h
        simp [ih _ hm]

/-- A successful batch transformation preserves the identifier of every
row, in order. -/
lemma mapE_identifiers (ctry : S → Option S) :
    ∀ (rows : List Row) (docs : List Doc),
      mapE (transformRow ctry) rows = Except.ok docs →
      docs.map Doc.identifier = rows.map Row.trialID := by
  intro rows
  induction rows with
  | nil =>
    intro docs h
    injection h with h
    subst h
    rfl
  | cons r rest ih =>
    intro docs h
    rw [mapE] at h
    cases hfr : transformRow ctry r <;> rw [hfr] at h
    · cases h
    · cases hm : mapE (transformRow ctry) rest <;> rw [hm] at h
      · cases h
      · injection h with h
        subst h
        simp only [List.map_cons, ih _ hm]
        rw [(transformRow_fields ctry r _ hfr).2.1]

/-- C8: a batch in which exactly two rows share one identifier, none of
them from the excluded registry, still yields one document per row with
every identifier preserved, and the post-batch diagnostic reports exactly
that one duplicated identifier. -/
theorem duplicate_ids_reported_not_dropped (ctry : S → Option S) (rows : List Row)
    (docs : List Doc) (A B C : List S) (x : S)
    (hsrc : ∀ r ∈ rows, r.sourceRegister ≠ ls r"ClinicalTrials.gov")
    (hok : mapE (transformRow ctry) rows = Except.ok docs)
    (hids : rows.map Row.trialID = A ++ x :: (B ++ x :: C))
    (hnd : (A ++ x :: (B ++ C)).Nodup) :
    getWHOTrials ctry rows = Except.ok (docs, [x]) ∧
    docs.length = rows.length ∧
    docs.map Doc.identifier = rows.map Row.trialID := by
  have hfilter :
      rows.filter (fun r => !decide (r.sourceRegister = ls r"ClinicalTrials.gov")) = rows := by
    apply List.filter_eq_self.mpr
    intro a ha
    simpa using hsrc a ha
  refine ⟨?_, mapE_ok_length _ rows docs hok, mapE_identifiers ctry rows docs hok⟩
  unfold getWHOTrials
  rw [hfilter, hok, hids, duplicateIds_one_pair A B C x hnd]

/-- The three-row batch of the C8 witness: the first and third rows share
one identifier. -/
def rows8 : List Row := [rowNone, { rowNone with trialID := ls r"trial-2" }, rowNone]

/-- The documents the C8 witness batch produces. -/
def docs8 : List Doc := ((mapE (transformRow ctryNone) rows8).toOption).getD []

/-- Witness for C8 on the three-row batch. -/
theorem duplicate_ids_reported_not_dropped_witness :
    getWHOTrials ctryNone rows8 = Except.ok (docs8, [ls r"trial-1"]) ∧
    docs8.length = rows8.length ∧
    docs8.map Doc.identifier = rows8.map Row.trialID :=
  duplicate_ids_reported_not_dropped ctryNone rows8 docs8
    [] [ls r"trial-2"] [] (ls r"trial-1") (by decide) rfl rfl (by decide)

/-- C10: in the EU intervention extractor, a block whose parsed key-value
lines contain both a Product Name and a Trade Name yields an intervention
object whose name is the Trade Name value: the Trade Name assignment runs
second and overwrites the Product Name one. -/
theorem eu_trade_name_precedence (block : List S) (parsed : List (S × S)) (x y : S)
    (hp : euPairs block = Except.ok parsed)
    (hne : block ≠ [])
    (hhd : block.headD [] ≠ [Char.ofNat 10])
    (hprod : lookupD parsed (ls r"Product Name") = some x)
    (htrade : lookupD parsed (ls r"Trade Name") = some y) :
    (euInterventionObj block).map (Option.map IntervObj.name) =
      Except.ok (some (some y)) := by
  unfold euInterventionObj
  rw [if_pos ⟨hne, hhd⟩, hp]
  simp only [hprod, htrade]
  cases hcas : lookupD parsed (ls r"CAS Number") <;> rfl

/-- The two-line block of the C10 witness. -/
def wBlock : List S := [ls r"Product Name: Drug A", ls r"Trade Name: Bestdrug"]

/-- The parsed key-value pairs of the C10 witness block. -/
def wParsed : List (S × S) := ((euPairs wBlock).toOption).getD []

/-- Witness for C10 on a block holding both names. -/
theorem eu_trade_name_precedence_witness :
    (euInterventionObj wBlock).map (Option.map IntervObj.name) =
      Except.ok (some (some (ls r"Bestdrug"))) :=
  eu_trade_name_precedence wBlock wParsed (ls r"Drug A") (ls r"Bestdrug")
    rfl (by decide) (by decide) rfl rfl
